import Mathlib

/-!
Verification of the geometry-delta algorithm, default configuration and
transition-orchestration protocol of the `illusory` element-morphing library.

The embedding is shallow:

* CSS pixel quantities are exact rationals.
* Where IEEE special values matter (division by a zero-sized rect), arithmetic
  is carried out in `JSNum`, rationals extended with the special values
  `posInf`, `negInf` and `nan`, following the JavaScript evaluation rules for
  `*`, `/`, `+` and `-` on those values (zero is the non-negative zero; DOM
  rect dimensions are never negative zero).
* `getDelta` is translated line by line from the source of
  `src/utils/delta` (the delta-calculator module); `DEFAULT_OPTIONS` from
  `src/options.ts`.
-/

/-- JavaScript numbers as exact rationals extended with the IEEE special
values. Rounding and overflow are not modelled; finite arithmetic is exact. -/
inductive JSNum
  | fin (q : ℚ)
  | posInf
  | negInf
  | nan
  deriving DecidableEq

namespace JSNum

/-- JavaScript negation. -/
def neg : JSNum → JSNum
  | fin q => fin (-q)
  | posInf => negInf
  | negInf => posInf
  | nan => nan

/-- JavaScript addition on extended numbers. -/
def add : JSNum → JSNum → JSNum
  | nan, _ => nan
  | _, nan => nan
  | fin a, fin b => fin (a + b)
  | fin _, posInf => posInf
  | posInf, fin _ => posInf
  | fin _, negInf => negInf
  | negInf, fin _ => negInf
  | posInf, posInf => posInf
  | negInf, negInf => negInf
  | posInf, negInf => nan
  | negInf, posInf => nan

/-- JavaScript subtraction on extended numbers. -/
def sub : JSNum → JSNum → JSNum
  | nan, _ => nan
  | _, nan => nan
  | fin a, fin b => fin (a - b)
  | fin _, posInf => negInf
  | posInf, fin _ => posInf
  | fin _, negInf => posInf
  | negInf, fin _ => negInf
  | posInf, posInf => nan
  | negInf, negInf => nan
  | posInf, negInf => posInf
  | negInf, posInf => negInf

/-- JavaScript multiplication on extended numbers; an infinity times zero is
`NaN`. -/
def mul : JSNum → JSNum → JSNum
  | nan, _ => nan
  | _, nan => nan
  | fin a, fin b => fin (a * b)
  | fin a, posInf => if a = 0 then nan else if 0 < a then posInf else negInf
  | posInf, fin b => if b = 0 then nan else if 0 < b then posInf else negInf
  | fin a, negInf => if a = 0 then nan else if 0 < a then negInf else posInf
  | negInf, fin b => if b = 0 then nan else if 0 < b then negInf else posInf
  | posInf, posInf => posInf
  | posInf, negInf => negInf
  | negInf, posInf => negInf
  | negInf, negInf => posInf

/-- JavaScript division on extended numbers; a nonzero finite value divided by
(non-negative) zero is a signed infinity and `0 / 0` is `NaN`. -/
def div : JSNum → JSNum → JSNum
  | nan, _ => nan
  | _, nan => nan
  | fin a, fin b =>
      if b = 0 then (if a = 0 then nan else if 0 < a then posInf else negInf)
      else fin (a / b)
  | fin _, posInf => fin 0
  | fin _, negInf => fin 0
  | posInf, fin b => if 0 ≤ b then posInf else negInf
  | negInf, fin b => if 0 ≤ b then negInf else posInf
  | posInf, posInf => nan
  | posInf, negInf => nan
  | negInf, posInf => nan
  | negInf, negInf => nan

instance : Neg JSNum := ⟨neg⟩

instance : Add JSNum := ⟨add⟩

instance : Sub JSNum := ⟨sub⟩

instance : Mul JSNum := ⟨mul⟩

instance : Div JSNum := ⟨div⟩

instance : One JSNum := ⟨fin 1⟩

instance : Zero JSNum := ⟨fin 0⟩

/-- The value is an ordinary (finite) number: neither an infinity nor `NaN`. -/
def isFinite : JSNum → Bool
  | fin _ => true
  | _ => false

@[simp] theorem isFinite_fin (q : ℚ) : (fin q).isFinite = true := rfl

@[simp] theorem isFinite_posInf : posInf.isFinite = false := rfl

@[simp] theorem isFinite_nan : nan.isFinite = false := rfl

@[simp] theorem fin_add_fin (a b : ℚ) : fin a + fin b = fin (a + b) := rfl

@[simp] theorem fin_sub_fin (a b : ℚ) : fin a - fin b = fin (a - b) := rfl

@[simp] theorem fin_mul_fin (a b : ℚ) : fin a * fin b = fin (a * b) := rfl

@[simp] theorem one_eq_fin : (1 : JSNum) = fin 1 := rfl

@[simp] theorem fin_div_fin (a b : ℚ) (hb : b ≠ 0) :
    fin a / fin b = fin (a / b) := by
  show div (fin a) (fin b) = fin (a / b)
  simp [div, hb]

end JSNum

/-- A pixel point. -/
structure Point where
  x : ℚ
  y : ℚ
  deriving DecidableEq

/-- The immutable bounding-box geometry record of a snapshot, captured at
construction time. -/
structure Rect where
  left : ℚ
  top : ℚ
  width : ℚ
  height : ℚ
  deriving DecidableEq

/-- Lifecycle states of an element snapshot. -/
inductive LifecycleState
  | constructed
  | attached
  | hidden
  | shown
  | detached
  deriving DecidableEq

/-- Modelled from the spec: the `IllusoryElement` class source
(`src/IllusoryElement.ts`) is not in the repository; the fields follow the
spec's ElementSnapshot data model. `natural` and `clone` are element
references, modelled as opaque identifiers. The computed `transform-origin`
style is represented by the pixel point it parses to, because the CSS string
parser is an external collaborator the spec excludes from scope and
`getStyle` returns the browser-computed pixel form. -/
structure IllusoryElement where
  natural : Nat
  clone : Nat
  rect : Rect
  styleOverrides : List (String × String)
  transformOrigin : Point
  naturalToCloneScale : ℚ
  lifecycle : LifecycleState
  deriving DecidableEq

/-- The affine delta produced by the delta calculator, exact-arithmetic form. -/
structure IDelta where
  x : ℚ
  y : ℚ
  scaleX : ℚ
  scaleY : ℚ
  inverseScaleX : ℚ
  inverseScaleY : ℚ
  deriving DecidableEq

/-- The affine delta with JavaScript number semantics, so that the special
values produced by division by a zero dimension are observable. -/
structure IDeltaJS where
  x : JSNum
  y : JSNum
  scaleX : JSNum
  scaleY : JSNum
  inverseScaleX : JSNum
  inverseScaleY : JSNum
  deriving DecidableEq

/-- A per-property delta handler: receives the delta, the computed delta style
string and the current style string, and returns the style string to apply. -/
def DeltaHandlerFunction : Type := IDelta → String → String → String

/-- The default per-property handler: passes the current style through. -/
def DELTA_PASS_THROUGH_HANDLER : DeltaHandlerFunction := fun _ _ thisStyle => thisStyle

/-- The delta calculator `getDelta`, translated line by line from the source,
with exact rational arithmetic. `origin` is the parsed `transform-origin` of
`start`. -/
def getDelta (start endEl : IllusoryElement) : IDelta :=
  let origin := start.transformOrigin
  let naturalToCloneScale := start.naturalToCloneScale
  let scaleX := naturalToCloneScale * endEl.rect.width / start.rect.width
  let scaleY := naturalToCloneScale * endEl.rect.height / start.rect.height
  let inverseScaleX := 1 / scaleX
  let inverseScaleY := 1 / scaleY
  let originDisplacementX := naturalToCloneScale * (origin.x / start.rect.width) * (endEl.rect.width * (1 - inverseScaleX))
  let originDisplacementY := naturalToCloneScale * (origin.y / start.rect.height) * (endEl.rect.height * (1 - inverseScaleY))
  let x := endEl.rect.left - start.rect.left + originDisplacementX
  let y := endEl.rect.top - start.rect.top + originDisplacementY
  { x := x
    y := y
    scaleX := scaleX
    scaleY := scaleY
    inverseScaleX := inverseScaleX
    inverseScaleY := inverseScaleY }

/-- The same computation as `getDelta`, carried out with JavaScript number
semantics: every source-level arithmetic operation is performed on `JSNum`,
so division by a zero rect dimension produces the infinity or `NaN` the
JavaScript engine would produce. -/
def getDeltaJS (start endEl : IllusoryElement) : IDeltaJS :=
  let origin := start.transformOrigin
  let naturalToCloneScale := JSNum.fin start.naturalToCloneScale
  let scaleX := naturalToCloneScale * JSNum.fin endEl.rect.width / JSNum.fin start.rect.width
  let scaleY := naturalToCloneScale * JSNum.fin endEl.rect.height / JSNum.fin start.rect.height
  let inverseScaleX := 1 / scaleX
  let inverseScaleY := 1 / scaleY
  let originDisplacementX := naturalToCloneScale * (JSNum.fin origin.x / JSNum.fin start.rect.width) * (JSNum.fin endEl.rect.width * (1 - inverseScaleX))
  let originDisplacementY := naturalToCloneScale * (JSNum.fin origin.y / JSNum.fin start.rect.height) * (JSNum.fin endEl.rect.height * (1 - inverseScaleY))
  let x := JSNum.fin endEl.rect.left - JSNum.fin start.rect.left + originDisplacementX
  let y := JSNum.fin endEl.rect.top - JSNum.fin start.rect.top + originDisplacementY
  { x := x
    y := y
    scaleX := scaleX
    scaleY := scaleY
    inverseScaleX := inverseScaleX
    inverseScaleY := inverseScaleY }

/-- The affine map a delta describes: translate by the delta, scale about the
given origin point. Points and the origin are in the coordinate frame in
which the start box sits at its captured rect position. -/
def deltaMap (d : IDelta) (origin p : Point) : Point :=
  { x := d.x + origin.x + d.scaleX * (p.x - origin.x)
    y := d.y + origin.y + d.scaleY * (p.y - origin.y) }

/-- A sample start snapshot used by the concrete witnesses below: a 100 by 50
box at the page origin whose transform-origin is its center. -/
def sampleStart : IllusoryElement :=
  ⟨0, 1, ⟨0, 0, 100, 50⟩, [], ⟨50, 25⟩, 1, .constructed⟩

/-- A sample end snapshot used by the concrete witnesses below: a 50 by 25 box
at position left 200, top 100. -/
def sampleEnd : IllusoryElement :=
  ⟨2, 3, ⟨200, 100, 50, 25⟩, [], ⟨0, 0⟩, 1, .constructed⟩

/-- Claim C1: for snapshots whose rects have nonzero width and height,
`getDelta` returns exactly the spec's formulas: the scales are
`naturalToCloneScale * end.rect.width / start.rect.width` (height for Y), the
inverse scales their reciprocals, the origin displacement is
`naturalToCloneScale * (origin.x / start.rect.width) * (end.rect.width * (1 - inverseScaleX))`
with `origin` the parsed transform-origin of `start`, and the translation is
the left/top difference plus the origin displacement. -/
theorem getDelta_matches_spec_formulas (start endEl : IllusoryElement)
    (hws : start.rect.width ≠ 0) (hhs : start.rect.height ≠ 0)
    (hwe : endEl.rect.width ≠ 0) (hhe : endEl.rect.height ≠ 0) :
    (getDelta start endEl).scaleX = start.naturalToCloneScale * endEl.rect.width / start.rect.width ∧
    (getDelta start endEl).scaleY = start.naturalToCloneScale * endEl.rect.height / start.rect.height ∧
    (getDelta start endEl).inverseScaleX = 1 / (getDelta start endEl).scaleX ∧
    (getDelta start endEl).inverseScaleY = 1 / (getDelta start endEl).scaleY ∧
    (getDelta start endEl).x = endEl.rect.left - start.rect.left +
      start.naturalToCloneScale * (start.transformOrigin.x / start.rect.width) *
        (endEl.rect.width * (1 - (getDelta start endEl).inverseScaleX)) ∧
    (getDelta start endEl).y = endEl.rect.top - start.rect.top +
      start.naturalToCloneScale * (start.transformOrigin.y / start.rect.height) *
        (endEl.rect.height * (1 - (getDelta start endEl).inverseScaleY)) :=
  ⟨rfl, rfl, rfl, rfl, rfl, rfl⟩

/-- Witness for C1 at the sample snapshots, whose dimensions are nonzero. -/
theorem getDelta_matches_spec_formulas_witness :
    sampleStart.rect.width ≠ 0 ∧ sampleStart.rect.height ≠ 0 ∧
    sampleEnd.rect.width ≠ 0 ∧ sampleEnd.rect.height ≠ 0 ∧
    ((getDelta sampleStart sampleEnd).scaleX =
      sampleStart.naturalToCloneScale * sampleEnd.rect.width / sampleStart.rect.width ∧
     (getDelta sampleStart sampleEnd).scaleY =
      sampleStart.naturalToCloneScale * sampleEnd.rect.height / sampleStart.rect.height ∧
     (getDelta sampleStart sampleEnd).inverseScaleX = 1 / (getDelta sampleStart sampleEnd).scaleX ∧
     (getDelta sampleStart sampleEnd).inverseScaleY = 1 / (getDelta sampleStart sampleEnd).scaleY ∧
     (getDelta sampleStart sampleEnd).x = sampleEnd.rect.left - sampleStart.rect.left +
       sampleStart.naturalToCloneScale * (sampleStart.transformOrigin.x / sampleStart.rect.width) *
         (sampleEnd.rect.width * (1 - (getDelta sampleStart sampleEnd).inverseScaleX)) ∧
     (getDelta sampleStart sampleEnd).y = sampleEnd.rect.top - sampleStart.rect.top +
       sampleStart.naturalToCloneScale * (sampleStart.transformOrigin.y / sampleStart.rect.height) *
         (sampleEnd.rect.height * (1 - (getDelta sampleStart sampleEnd).inverseScaleY))) :=
  ⟨by norm_num [sampleStart], by norm_num [sampleStart],
   by norm_num [sampleEnd], by norm_num [sampleEnd],
   getDelta_matches_spec_formulas sampleStart sampleEnd
     (by norm_num [sampleStart]) (by norm_num [sampleStart])
     (by norm_num [sampleEnd]) (by norm_num [sampleEnd])⟩

/-- Claim C4: on the concrete scenario of the spec (start rect at the origin,
100 by 50, end rect at left 200, top 100, 50 by 25, transform-origin at the
start element's center, unit natural-to-clone scale), `getDelta` returns
scaleX = scaleY = 0.5, inverseScaleX = inverseScaleY = 2, x = 175, y = 87.5. -/
theorem getDelta_concrete_scenario :
    getDelta sampleStart sampleEnd =
      { x := 175, y := 175 / 2, scaleX := 1 / 2, scaleY := 1 / 2,
        inverseScaleX := 2, inverseScaleY := 2 } := by
  simp only [getDelta, sampleStart, sampleEnd]
  norm_num

/-- Claim C8: the default per-property delta handler is an identity on the
current style: it returns its third argument unchanged for every delta and
every pair of style strings. -/
theorem delta_pass_through_handler_id (d : IDelta) (deltaStyle thisStyle : String) :
    DELTA_PASS_THROUGH_HANDLER d deltaStyle thisStyle = thisStyle := rfl

/-- Claim C9: `getDelta` is deterministic in its observable inputs: two runs
on snapshot pairs that agree on both rects, on the start snapshot's parsed
transform-origin and on its natural-to-clone scale return equal deltas,
whatever the remaining snapshot fields (element references, style overrides,
lifecycle states, the end snapshot's origin and scale) are. -/
theorem getDelta_deterministic (s1 s2 e1 e2 : IllusoryElement)
    (hr : s1.rect = s2.rect) (ho : s1.transformOrigin = s2.transformOrigin)
    (hn : s1.naturalToCloneScale = s2.naturalToCloneScale)
    (he : e1.rect = e2.rect) :
    getDelta s1 e1 = getDelta s2 e2 := by
  simp only [getDelta, hr, ho, hn, he]

/-- Witness for C9: two snapshot pairs differing in element references, style
overrides, lifecycle state, and in the end snapshot's origin and scale, but
agreeing on the observable inputs, get the same delta. -/
theorem getDelta_deterministic_witness :
    (IllusoryElement.mk 0 1 ⟨0, 0, 100, 50⟩ [] ⟨50, 25⟩ 1 .constructed).rect =
      (IllusoryElement.mk 7 8 ⟨0, 0, 100, 50⟩ [("opacity", "0")] ⟨50, 25⟩ 1 .attached).rect ∧
    getDelta (IllusoryElement.mk 0 1 ⟨0, 0, 100, 50⟩ [] ⟨50, 25⟩ 1 .constructed)
        (IllusoryElement.mk 2 3 ⟨200, 100, 50, 25⟩ [] ⟨0, 0⟩ 1 .constructed) =
      getDelta (IllusoryElement.mk 7 8 ⟨0, 0, 100, 50⟩ [("opacity", "0")] ⟨50, 25⟩ 1 .attached)
        (IllusoryElement.mk 9 10 ⟨200, 100, 50, 25⟩ [] ⟨40, 3⟩ 5 .detached) :=
  ⟨rfl,
   getDelta_deterministic _ _ _ _ rfl rfl rfl rfl⟩

/-- Claim C3: with unit natural-to-clone scale and strictly positive
dimensions, the affine map described by the delta (translate by the delta,
scale about the start box's transform-origin point) maps the start rect's
top-left corner exactly onto the end rect's top-left corner, and its
bottom-right corner exactly onto the end rect's bottom-right corner: scaling
pivots at the declared origin with no discrepancy. -/
theorem getDelta_pivots_at_origin (start endEl : IllusoryElement)
    (hws : 0 < start.rect.width) (hhs : 0 < start.rect.height)
    (hwe : 0 < endEl.rect.width) (hhe : 0 < endEl.rect.height)
    (hn : start.naturalToCloneScale = 1) :
    deltaMap (getDelta start endEl)
        ⟨start.rect.left + start.transformOrigin.x, start.rect.top + start.transformOrigin.y⟩
        ⟨start.rect.left, start.rect.top⟩ = ⟨endEl.rect.left, endEl.rect.top⟩ ∧
    deltaMap (getDelta start endEl)
        ⟨start.rect.left + start.transformOrigin.x, start.rect.top + start.transformOrigin.y⟩
        ⟨start.rect.left + start.rect.width, start.rect.top + start.rect.height⟩ =
      ⟨endEl.rect.left + endEl.rect.width, endEl.rect.top + endEl.rect.height⟩ := by
  simp only [deltaMap, getDelta, hn, Point.mk.injEq]
  refine ⟨⟨?_, ?_⟩, ⟨?_, ?_⟩⟩ <;>
    field_simp <;> ring

/-- Witness for C3 at the sample snapshots, whose dimensions are positive and
whose start scale is 1. -/
theorem getDelta_pivots_at_origin_witness :
    (0 < sampleStart.rect.width ∧ 0 < sampleStart.rect.height ∧
     0 < sampleEnd.rect.width ∧ 0 < sampleEnd.rect.height ∧
     sampleStart.naturalToCloneScale = 1) ∧
    (deltaMap (getDelta sampleStart sampleEnd)
        ⟨sampleStart.rect.left + sampleStart.transformOrigin.x,
         sampleStart.rect.top + sampleStart.transformOrigin.y⟩
        ⟨sampleStart.rect.left, sampleStart.rect.top⟩ =
      ⟨sampleEnd.rect.left, sampleEnd.rect.top⟩ ∧
     deltaMap (getDelta sampleStart sampleEnd)
        ⟨sampleStart.rect.left + sampleStart.transformOrigin.x,
         sampleStart.rect.top + sampleStart.transformOrigin.y⟩
        ⟨sampleStart.rect.left + sampleStart.rect.width,
         sampleStart.rect.top + sampleStart.rect.height⟩ =
      ⟨sampleEnd.rect.left + sampleEnd.rect.width,
       sampleEnd.rect.top + sampleEnd.rect.height⟩) :=
  ⟨⟨by norm_num [sampleStart], by norm_num [sampleStart],
    by norm_num [sampleEnd], by norm_num [sampleEnd], rfl⟩,
   getDelta_pivots_at_origin sampleStart sampleEnd
     (by norm_num [sampleStart]) (by norm_num [sampleStart])
     (by norm_num [sampleEnd]) (by norm_num [sampleEnd]) rfl⟩

/-- A start snapshot with positive rect dimensions but a natural-to-clone
scale of zero; exhibits the failure of inverse consistency and finiteness for
arbitrary scale values. -/
def zeroScaleStart : IllusoryElement :=
  ⟨0, 1, ⟨0, 0, 100, 50⟩, [], ⟨50, 25⟩, 0, .constructed⟩

/-- Counterexample to claim C5 as stated: both rects have strictly positive
widths and heights, yet with a natural-to-clone scale of zero the code
computes scaleX = 0 and inverseScaleX = 1 / 0 = Infinity, whose product is
NaN, not 1. -/
theorem getDelta_inverse_consistency_cex :
    0 < zeroScaleStart.rect.width ∧ 0 < zeroScaleStart.rect.height ∧
    0 < sampleEnd.rect.width ∧ 0 < sampleEnd.rect.height ∧
    (getDeltaJS zeroScaleStart sampleEnd).scaleX *
      (getDeltaJS zeroScaleStart sampleEnd).inverseScaleX ≠ JSNum.fin 1 := by
  have h : (getDeltaJS zeroScaleStart sampleEnd).scaleX *
      (getDeltaJS zeroScaleStart sampleEnd).inverseScaleX = JSNum.nan := by
    simp only [getDeltaJS, zeroScaleStart, sampleEnd]
    norm_num [HMul.hMul, Mul.mul, JSNum.mul, HDiv.hDiv, Div.div, JSNum.div, One.one]
  refine ⟨by norm_num [zeroScaleStart], by norm_num [zeroScaleStart],
    by norm_num [sampleEnd], by norm_num [sampleEnd], ?_⟩
  rw [h]
  decide

/-- Claim C5 as amended: for snapshots whose rects have strictly positive
widths and heights and whose start natural-to-clone scale is nonzero (the
default is 1), the delta satisfies scaleX * inverseScaleX = 1 and
scaleY * inverseScaleY = 1 exactly, over exact arithmetic. -/
theorem getDelta_inverse_consistency (start endEl : IllusoryElement)
    (hws : 0 < start.rect.width) (hhs : 0 < start.rect.height)
    (hwe : 0 < endEl.rect.width) (hhe : 0 < endEl.rect.height)
    (hn : start.naturalToCloneScale ≠ 0) :
    (getDelta start endEl).scaleX * (getDelta start endEl).inverseScaleX = 1 ∧
    (getDelta start endEl).scaleY * (getDelta start endEl).inverseScaleY = 1 := by
  simp only [getDelta]
  constructor
  · exact mul_one_div_cancel (div_ne_zero (mul_ne_zero hn hwe.ne') hws.ne')
  · exact mul_one_div_cancel (div_ne_zero (mul_ne_zero hn hhe.ne') hhs.ne')

/-- Witness for the amended C5 at the sample snapshots. -/
theorem getDelta_inverse_consistency_witness :
    (0 < sampleStart.rect.width ∧ 0 < sampleStart.rect.height ∧
     0 < sampleEnd.rect.width ∧ 0 < sampleEnd.rect.height ∧
     sampleStart.naturalToCloneScale ≠ 0) ∧
    ((getDelta sampleStart sampleEnd).scaleX * (getDelta sampleStart sampleEnd).inverseScaleX = 1 ∧
     (getDelta sampleStart sampleEnd).scaleY * (getDelta sampleStart sampleEnd).inverseScaleY = 1) :=
  ⟨⟨by norm_num [sampleStart], by norm_num [sampleStart],
    by norm_num [sampleEnd], by norm_num [sampleEnd], by norm_num [sampleStart]⟩,
   getDelta_inverse_consistency sampleStart sampleEnd
     (by norm_num [sampleStart]) (by norm_num [sampleStart])
     (by norm_num [sampleEnd]) (by norm_num [sampleEnd]) (by norm_num [sampleStart])⟩

/-- Counterexample to claim C6 as stated: all four rect dimensions are
strictly positive, yet for the natural-to-clone scale value 0 (which the
snapshot may carry, as the field is unconstrained) inverseScaleX is
1 / 0 = Infinity, a non-finite value, and scaleX = 0 is not strictly
positive. -/
theorem getDeltaJS_finite_cex :
    0 < zeroScaleStart.rect.width ∧ 0 < zeroScaleStart.rect.height ∧
    0 < sampleEnd.rect.width ∧ 0 < sampleEnd.rect.height ∧
    (getDeltaJS zeroScaleStart sampleEnd).inverseScaleX.isFinite = false ∧
    (getDeltaJS zeroScaleStart sampleEnd).scaleX = JSNum.fin 0 := by
  refine ⟨by norm_num [zeroScaleStart], by norm_num [zeroScaleStart],
    by norm_num [sampleEnd], by norm_num [sampleEnd], ?_, ?_⟩ <;>
  · simp only [getDeltaJS, zeroScaleStart, sampleEnd]
    norm_num [HMul.hMul, Mul.mul, JSNum.mul, HDiv.hDiv, Div.div, JSNum.div, One.one,
      JSNum.isFinite]

/-- Claim C6 as amended: with all four rect dimensions strictly positive and a
strictly positive start natural-to-clone scale, every field of the delta is a
finite number and scaleX and scaleY are strictly positive, under JavaScript
number semantics. -/
theorem getDeltaJS_finite_pos (start endEl : IllusoryElement)
    (hws : 0 < start.rect.width) (hhs : 0 < start.rect.height)
    (hwe : 0 < endEl.rect.width) (hhe : 0 < endEl.rect.height)
    (hn : 0 < start.naturalToCloneScale) :
    (getDeltaJS start endEl).x.isFinite = true ∧
    (getDeltaJS start endEl).y.isFinite = true ∧
    (∃ q, (getDeltaJS start endEl).scaleX = JSNum.fin q ∧ 0 < q) ∧
    (∃ q, (getDeltaJS start endEl).scaleY = JSNum.fin q ∧ 0 < q) ∧
    (getDeltaJS start endEl).inverseScaleX.isFinite = true ∧
    (getDeltaJS start endEl).inverseScaleY.isFinite = true := by
  have hsx : 0 < start.naturalToCloneScale * endEl.rect.width / start.rect.width :=
    div_pos (mul_pos hn hwe) hws
  have hsy : 0 < start.naturalToCloneScale * endEl.rect.height / start.rect.height :=
    div_pos (mul_pos hn hhe) hhs
  refine ⟨?_, ?_, ⟨_, ?_, hsx⟩, ⟨_, ?_, hsy⟩, ?_, ?_⟩ <;>
    simp [getDeltaJS, JSNum.fin_div_fin, hws.ne', hhs.ne', hsx.ne', hsy.ne']

/-- Witness for the amended C6 at the sample snapshots. -/
theorem getDeltaJS_finite_pos_witness :
    (0 < sampleStart.rect.width ∧ 0 < sampleStart.rect.height ∧
     0 < sampleEnd.rect.width ∧ 0 < sampleEnd.rect.height ∧
     0 < sampleStart.naturalToCloneScale) ∧
    ((getDeltaJS sampleStart sampleEnd).x.isFinite = true ∧
     (getDeltaJS sampleStart sampleEnd).y.isFinite = true ∧
     (∃ q, (getDeltaJS sampleStart sampleEnd).scaleX = JSNum.fin q ∧ 0 < q) ∧
     (∃ q, (getDeltaJS sampleStart sampleEnd).scaleY = JSNum.fin q ∧ 0 < q) ∧
     (getDeltaJS sampleStart sampleEnd).inverseScaleX.isFinite = true ∧
     (getDeltaJS sampleStart sampleEnd).inverseScaleY.isFinite = true) :=
  ⟨⟨by norm_num [sampleStart], by norm_num [sampleStart],
    by norm_num [sampleEnd], by norm_num [sampleEnd], by norm_num [sampleStart]⟩,
   getDeltaJS_finite_pos sampleStart sampleEnd
     (by norm_num [sampleStart]) (by norm_num [sampleStart])
     (by norm_num [sampleEnd]) (by norm_num [sampleEnd]) (by norm_num [sampleStart])⟩

/-- A start snapshot whose rect has zero width, the degenerate geometry of
claim C2. -/
def zeroWidthStart : IllusoryElement :=
  ⟨0, 1, ⟨0, 0, 0, 50⟩, [], ⟨0, 0⟩, 1, .constructed⟩

/-- Claim C2, evaluated on the code: with a zero-width start rect the source
divides by zero with no guard, so scaleX evaluates to Infinity under
JavaScript number semantics, not to the clamped value 1 the spec's policy
requires. -/
theorem getDeltaJS_zero_width_no_clamp :
    zeroWidthStart.rect.width = 0 ∧
    (getDeltaJS zeroWidthStart sampleEnd).scaleX = JSNum.posInf ∧
    (getDeltaJS zeroWidthStart sampleEnd).scaleX ≠ JSNum.fin 1 := by
  have h : (getDeltaJS zeroWidthStart sampleEnd).scaleX = JSNum.posInf := by
    simp only [getDeltaJS, zeroWidthStart, sampleEnd]
    norm_num [HMul.hMul, Mul.mul, JSNum.mul, HDiv.hDiv, Div.div, JSNum.div, One.one]
  exact ⟨rfl, h, by rw [h]; decide⟩

/-- Modelled from the spec: the attribute filter of `src/utils/duplicateNode`
is not in the repository; only its shape matters here — a predicate on an
attribute name deciding preservation. -/
def FilterFunction : Type := String → Bool

/-- Modelled from the spec: the clone-processor hook of
`src/utils/duplicateNode` is not in the repository; it receives a node
(modelled as an identifier) and a depth and returns the node to keep or
nothing to drop it. -/
def CloneProcessorFunction : Type := Nat → Nat → Option Nat

/-- A lifecycle hook invoked with the two snapshots before the animation. -/
def BeforeAnimateHook : Type := IllusoryElement → IllusoryElement → Unit

/-- A lifecycle hook invoked with the two snapshots and the cancellation flag
before detaching. -/
def BeforeDetachHook : Type := IllusoryElement → IllusoryElement → Bool → Unit

/-- A scroll container the clones stay anchored to: the document or an
element (modelled as an identifier). -/
inductive RelativeToTarget
  | document
  | element (id : Nat)
  deriving DecidableEq

/-- Element-tier options, translated from `IIllusoryElementOptions` in
`src/options.ts`; `ignoreTransparency` is a boolean or a tag-name list, the
optional keys are `Option` fields. -/
structure IIllusoryElementOptions where
  includeChildren : Bool
  ignoreTransparency : Bool ⊕ List String
  preserveDataAttributes : Option (Bool ⊕ FilterFunction)
  processClone : Option CloneProcessorFunction
  attachImmediately : Option Bool
  naturalToCloneScale : ℚ

/-- Top-level options, translated from `IIllusoryOptions` in
`src/options.ts`. -/
structure IIllusoryOptions where
  element : IIllusoryElementOptions
  compositeOnly : Bool
  duration : String
  easing : String
  zIndex : ℚ
  beforeAnimate : Option BeforeAnimateHook
  beforeDetach : Option BeforeDetachHook
  relativeTo : List RelativeToTarget

/-- The global default configuration, translated from `DEFAULT_OPTIONS` in
`src/options.ts`: the optional keys it does not mention are absent. -/
def DEFAULT_OPTIONS : IIllusoryOptions :=
  { element :=
      { includeChildren := true
        ignoreTransparency := Sum.inr ["img"]
        preserveDataAttributes := none
        processClone := none
        attachImmediately := none
        naturalToCloneScale := 1 }
    zIndex := 1
    compositeOnly := false
    duration := "300ms"
    easing := "ease"
    beforeAnimate := none
    beforeDetach := none
    relativeTo := [RelativeToTarget.document] }

/-- Claim C10: the global default configuration is exactly: element tier
includeChildren = true, ignoreTransparency is the tag list containing only
img, naturalToCloneScale = 1; top level zIndex = 1, compositeOnly = false,
duration 300ms, easing ease, relativeTo the one-element list containing the
document; and every optional key (preserveDataAttributes, processClone,
attachImmediately, and the hooks) is absent. -/
theorem default_options_values :
    DEFAULT_OPTIONS.element.includeChildren = true ∧
    DEFAULT_OPTIONS.element.ignoreTransparency = Sum.inr ["img"] ∧
    DEFAULT_OPTIONS.element.naturalToCloneScale = 1 ∧
    DEFAULT_OPTIONS.element.preserveDataAttributes = none ∧
    DEFAULT_OPTIONS.element.processClone = none ∧
    DEFAULT_OPTIONS.element.attachImmediately = none ∧
    DEFAULT_OPTIONS.zIndex = 1 ∧
    DEFAULT_OPTIONS.compositeOnly = false ∧
    DEFAULT_OPTIONS.duration = "300ms" ∧
    DEFAULT_OPTIONS.easing = "ease" ∧
    DEFAULT_OPTIONS.relativeTo = [RelativeToTarget.document] ∧
    DEFAULT_OPTIONS.beforeAnimate = none ∧
    DEFAULT_OPTIONS.beforeDetach = none :=
  ⟨rfl, rfl, rfl, rfl, rfl, rfl, rfl, rfl, rfl, rfl, rfl, rfl, rfl⟩

/-- The outcome of a user hook: absent, or a future that resolves or rejects
with an error of type `ε`. A hook returning a non-future value is treated as
already resolved, so `Option (Except ε Unit)` captures the observable
outcomes. -/
structure OrchHooks (ε : Type) where
  beforeAttach : Option (Except ε Unit)
  beforeAnimate : Option (Except ε Unit)
  beforeDetach : Option (Except ε Unit)

/-- An absent hook behaves as an already-resolved one. -/
def hookOutcome {ε : Type} (h : Option (Except ε Unit)) : Except ε Unit :=
  h.getD (Except.ok ())

/-- The externally observable steps of one orchestrator invocation, in
execution order; `resolve` and `reject` are the settlement of the returned
future. -/
inductive OrchStep (ε : Type)
  | normalize
  | attach
  | hookDone (name : String)
  | flush
  | applyDelta
  | awaitCompletion
  | cleanup
  | resolve
  | reject (e : ε)

/-- The per-snapshot state the orchestrator mutates: whether the natural
element is hidden and whether the clone is attached. -/
structure CloneState where
  naturalHidden : Bool
  cloneAttached : Bool
  deriving DecidableEq

/-- The orchestrator's state over both snapshots. -/
structure OrchState where
  fromEl : CloneState
  toEl : CloneState
  deriving DecidableEq

/-- The state after Cleanup: both natural elements visible again, both clones
detached. -/
def cleanedState : OrchState := ⟨⟨false, false⟩, ⟨false, false⟩⟩

/-- Modelled from the spec: the orchestrator source (the `illusory` entry
point) is not in the repository. One invocation executes the step sequence of
the spec — Normalize, Attach, BeforeAttachHook, Flush, BeforeAnimateHook,
ApplyDelta, AwaitCompletion, BeforeDetachHook, Cleanup — suspending on each
hook outcome; when a hook rejects, the remaining phases are skipped, Cleanup
still runs, and the returned future rejects with the hook's error only after
Cleanup. The result is the final snapshot state paired with the ordered step
trace, whose last event is the settlement of the returned future. -/
def runIllusory {ε : Type} (hooks : OrchHooks ε) : OrchState × List (OrchStep ε) :=
  match hookOutcome hooks.beforeAttach with
  | .error e => (cleanedState, [.normalize, .attach, .cleanup, .reject e])
  | .ok _ =>
    match hookOutcome hooks.beforeAnimate with
    | .error e =>
        (cleanedState,
         [.normalize, .attach, .hookDone "beforeAttach", .flush, .cleanup, .reject e])
    | .ok _ =>
      match hookOutcome hooks.beforeDetach with
      | .error e =>
          (cleanedState,
           [.normalize, .attach, .hookDone "beforeAttach", .flush,
            .hookDone "beforeAnimate", .applyDelta, .awaitCompletion, .cleanup, .reject e])
      | .ok _ =>
          (cleanedState,
           [.normalize, .attach, .hookDone "beforeAttach", .flush,
            .hookDone "beforeAnimate", .applyDelta, .awaitCompletion,
            .hookDone "beforeDetach", .cleanup, .resolve])

/-- The first rejecting hook's error, in hook invocation order, if any. -/
def firstHookRejection {ε : Type} (hooks : OrchHooks ε) : Option ε :=
  match hookOutcome hooks.beforeAttach with
  | .error e => some e
  | .ok _ =>
    match hookOutcome hooks.beforeAnimate with
    | .error e => some e
    | .ok _ =>
      match hookOutcome hooks.beforeDetach with
      | .error e => some e
      | .ok _ => none

/-- The settlement of the returned future: rejection with the given error, or
resolution when there is none. -/
def settleStep {ε : Type} : Option ε → OrchStep ε
  | some e => OrchStep.reject e
  | none => OrchStep.resolve

/-- Claim C7: for every invocation and every combination of hook outcomes,
the final state is the cleaned-up one (both natural elements restored, both
clones detached), and the step trace ends with Cleanup followed immediately
by the settlement of the returned future, which is a rejection exactly when
some hook rejected (with the first rejecting hook's error) and a resolution
otherwise — so Cleanup always runs and always completes before the future
settles. -/
theorem runIllusory_cleanup_always {ε : Type} (hooks : OrchHooks ε) :
    (runIllusory hooks).1 = cleanedState ∧
    ∃ pre, (runIllusory hooks).2 =
      pre ++ [OrchStep.cleanup, settleStep (firstHookRejection hooks)] := by
  unfold runIllusory firstHookRejection
  rcases hookOutcome hooks.beforeAttach with e | u
  · exact ⟨rfl, [OrchStep.normalize, OrchStep.attach], rfl⟩
  · rcases hookOutcome hooks.beforeAnimate with e | u
    · exact ⟨rfl,
        [OrchStep.normalize, OrchStep.attach, OrchStep.hookDone "beforeAttach",
         OrchStep.flush], rfl⟩
    · rcases hookOutcome hooks.beforeDetach with e | u
      · exact ⟨rfl,
          [OrchStep.normalize, OrchStep.attach, OrchStep.hookDone "beforeAttach",
           OrchStep.flush, OrchStep.hookDone "beforeAnimate", OrchStep.applyDelta,
           OrchStep.awaitCompletion], rfl⟩
      · exact ⟨rfl,
          [OrchStep.normalize, OrchStep.attach, OrchStep.hookDone "beforeAttach",
           OrchStep.flush, OrchStep.hookDone "beforeAnimate", OrchStep.applyDelta,
           OrchStep.awaitCompletion, OrchStep.hookDone "beforeDetach"], rfl⟩
